import Mathlib

/-!
Shallow embedding of the AuthService transactional registration/verification
core (src/auth_service/db/service.py) and the user read endpoint
(src/auth_service/api/endpoints/user.py).

Modelling conventions:
* UUIDs are modelled as natural numbers drawn from a fresh-id counter in the
  database state (uuid4 produces a previously unused identifier).
* Timestamps are integers; utc_now() is the `now` field of the state, held
  fixed during one operation.
* Each table is a list of rows; an SQL INSERT appends, COUNT filters, and
  fetchrow returns the first row (List.find?).
* A transaction is a function returning Except: `throw` aborts the
  transaction, so no state change escapes (rollback); `.ok` carries the
  committed state.
-/

deriving instance DecidableEq for Except

namespace AuthService

/-- Role enumeration from auth_service.models.user.UserRole. -/
inductive UserRole where
  | user
  | admin
deriving DecidableEq, Repr

/-- The VARCHAR form in which a UserRole value is stored. -/
def UserRole.toVarchar : UserRole → String
  | .user => "user"
  | .admin => "admin"

/-- Registration input (NewcomerRegistered): name, email and password are
already validated/hashed by the collaborator layer. -/
structure NewcomerRegistered where
  name : String
  email : String
  password : String
deriving DecidableEq, Repr

/-- A row of the `newcomers` table (a PendingSignup). -/
structure Newcomer where
  user_id : Nat
  name : String
  email : String
  password : String
  created_at : Int
deriving DecidableEq, Repr

/-- A row of the `registration_tokens` table. The stored `token` is the
hashed form of the token surfaced to the user. -/
structure RegistrationToken where
  token : String
  user_id : Nat
  created_at : Int
  expired_at : Int
deriving DecidableEq, Repr

/-- A row of the `users` table (a VerifiedAccount). The `role` column is a
VARCHAR, so it is modelled as a string. -/
structure UserRow where
  user_id : Nat
  name : String
  email : String
  password : String
  created_at : Int
  verified_at : Int
  role : String
deriving DecidableEq, Repr

/-- The persistent store: the three tables, plus the identifier source
(uuid4 freshness counter) and the clock reading (utc_now). -/
structure DBState where
  newcomers : List Newcomer
  registration_tokens : List RegistrationToken
  users : List UserRow
  next_id : Nat
  now : Int
deriving DecidableEq, Repr

/-- The error outcomes surfaced by the data layer.  The first three are the
domain exceptions from auth_service.db.exceptions; `serializationRaised`
models asyncpg.SerializationError escaping the retry loop; `unboundLocal`
models Python's UnboundLocalError from the `return result` line when the
loop body never ran. -/
inductive DBError where
  | userAlreadyExists
  | tooManyNewcomersWithSameEmail
  | tokenNotFound
  | serializationRaised
  | unboundLocal
deriving DecidableEq, Repr

namespace DBService

/-- DBService._count_users_by_email: `SELECT count(*) FROM users WHERE
email = $1::VARCHAR`. -/
def count_users_by_email (s : DBState) (email : String) : Nat :=
  (s.users.filter (fun u => u.email == email)).length

/-- DBService._count_newcomers_by_email: `SELECT count(*) FROM newcomers
WHERE email = $1::VARCHAR`. -/
def count_newcomers_by_email (s : DBState) (email : String) : Nat :=
  (s.newcomers.filter (fun n => n.email == email)).length

/-- DBService._insert_newcomer: INSERT INTO newcomers with a fresh uuid4
and utc_now(), RETURNING the created row. -/
def insert_newcomer (s : DBState) (nr : NewcomerRegistered) :
    DBState × Newcomer :=
  let n : Newcomer :=
    { user_id := s.next_id
      name := nr.name
      email := nr.email
      password := nr.password
      created_at := s.now }
  ({ s with newcomers := s.newcomers ++ [n], next_id := s.next_id + 1 }, n)

/-- DBService._create_newcomer: the unit of work of the registration
transaction.  `maxN` is the `max_newcomers_with_same_email` configuration
field of the service. -/
def create_newcomer_txn (maxN : Nat) (s : DBState) (nr : NewcomerRegistered) :
    Except DBError (DBState × Newcomer) :=
  if count_users_by_email s nr.email > 0 then
    throw .userAlreadyExists
  else if count_newcomers_by_email s nr.email ≥ maxN then
    throw .tooManyNewcomersWithSameEmail
  else
    pure (insert_newcomer s nr)

/-- DBService.create_newcomer on the conflict-free path: the executor runs
the unit of work in one serializable transaction; a domain error rolls the
transaction back, so the pre-state is what remains visible.  (The retry
machinery itself is modelled separately below.) -/
def create_newcomer (maxN : Nat) (s : DBState) (nr : NewcomerRegistered) :
    DBState × Except DBError Newcomer :=
  match create_newcomer_txn maxN s nr with
  | .ok (s₁, n) => (s₁, .ok n)
  | .error e => (s, .error e)

/-- DBService.save_registration_token: `INSERT INTO registration_tokens`
executed via `self.pool.execute`, i.e. as a standalone statement on a
fresh pool connection, outside any caller-held transaction. -/
def save_registration_token (s : DBState) (t : RegistrationToken) : DBState :=
  { s with registration_tokens := s.registration_tokens ++ [t] }

/-- The row set produced by `newcomers JOIN registration_tokens rt ON
newcomers.user_id = rt.user_id` (nested-loop join, newcomers outer). -/
def joined_rows (s : DBState) : List (Newcomer × RegistrationToken) :=
  (s.newcomers.map (fun n =>
    (s.registration_tokens.filter (fun t => t.user_id == n.user_id)).map
      (fun t => (n, t)))).flatten

/-- DBService._get_newcomer_by_token: fetchrow over the join with
`WHERE token = $1::VARCHAR and expired_at > $2::TIMESTAMP`, the second
parameter being utc_now(). -/
def get_newcomer_by_token (s : DBState) (token : String) :
    Option (Newcomer × RegistrationToken) :=
  (joined_rows s).find?
    (fun p => p.2.token == token && decide (s.now < p.2.expired_at))

/-- The users-row built by the INSERT in DBService._verify_newcomer,
read off the literal query text: the VALUES clause references only
placeholders $1 to $5, binding $5 three times — `$5::TIMESTAMP` for
`created_at`, `$5::TIMESTAMP` again for `verified_at`, and `$5::VARCHAR`
for `role`.  The call site passes utc_now() and UserRole.user as sixth
and seventh arguments, but the query text never references $6 or $7, so
both columns receive the newcomer's created_at (the role column as its
VARCHAR rendering). -/
def users_insert_row (n : Newcomer) : UserRow :=
  { user_id := n.user_id
    name := n.name
    email := n.email
    password := n.password
    created_at := n.created_at
    verified_at := n.created_at
    role := toString n.created_at }

/-- Modelled from the spec: the users-row that §4.3 step 3 of the spec
says the verification INSERT should produce — identifier, name, email,
password and created_at copied from the PendingSignup, `verified_at`
equal to utc_now() at verification time, and role equal to the standard
default UserRole.user. -/
def users_insert_row_intended (n : Newcomer) (now : Int) : UserRow :=
  { user_id := n.user_id
    name := n.name
    email := n.email
    password := n.password
    created_at := n.created_at
    verified_at := now
    role := UserRole.toVarchar UserRole.user }

/-- DBService._verify_newcomer: the unit of work of the verification
transaction. -/
def verify_newcomer_txn (s : DBState) (token : String) :
    Except DBError (DBState × UserRow) :=
  match get_newcomer_by_token s token with
  | none => throw .tokenNotFound
  | some (n, _) =>
    if count_users_by_email s n.email > 0 then
      throw .userAlreadyExists
    else
      let u := users_insert_row n
      pure ({ s with users := s.users ++ [u] }, u)

/-- DBService.verify_newcomer on the conflict-free path: one committed
serializable transaction; a domain error rolls back, leaving the
pre-state. -/
def verify_newcomer (s : DBState) (token : String) :
    DBState × Except DBError UserRow :=
  match verify_newcomer_txn s token with
  | .ok (s₁, u) => (s₁, .ok u)
  | .error e => (s, .error e)

/-! ### The retrying transaction executor

`execute_serializable_transaction` acquires one connection and runs up to
`n_transaction_retries` attempts.  What the store does on attempt `i` is
abstracted as an oracle: either the serializable transaction aborts with a
serialization conflict (whether during the unit of work or at commit), or
the unit of work raises a domain error, or the attempt commits a value. -/

/-- Outcome of one attempt of the unit of work inside its serializable
transaction. -/
inductive AttemptOutcome (α : Type) where
  | conflict
  | domain (e : DBError)
  | success (a : α)

/-- How a call to execute_serializable_transaction ends: a committed
result, a propagated domain error, the re-raised SerializationError after
the last attempt, or the UnboundLocalError of `return result` when the
loop body never ran. -/
inductive ExecResult (α : Type) where
  | committed (a : α)
  | domainError (e : DBError)
  | serializationRaised
  | unboundLocal
deriving DecidableEq, Repr

/-- A call's observable behaviour: its final result, how many times the
loop body ran (one transaction opened and one invocation of the unit of
work per iteration), and the asyncio.sleep durations in order. -/
structure ExecTrace (α : Type) where
  result : ExecResult α
  executions : Nat
  sleeps : List ℚ
deriving DecidableEq, Repr

/-- The retry loop of execute_serializable_transaction.  `remaining` is
the number of loop iterations still to run and `i` the current value of
`attempt`, so `remaining = 0` inside an iteration's except-branch is the
source's `attempt == self.n_transaction_retries - 1` test.  Reaching
`remaining = 0` between iterations means the `for` loop is over without a
`break`, and `return result` reads a never-assigned variable. -/
def exec_loop {α : Type} (attempts : Nat → AttemptOutcome α) (factor : ℚ) :
    Nat → Nat → ℚ → ExecTrace α
  | 0, _, _ => { result := .unboundLocal, executions := 0, sleeps := [] }
  | remaining + 1, i, interval =>
    match attempts i with
    | .success a => { result := .committed a, executions := 1, sleeps := [] }
    | .domain e => { result := .domainError e, executions := 1, sleeps := [] }
    | .conflict =>
      if remaining = 0 then
        { result := .serializationRaised, executions := 1, sleeps := [] }
      else
        let t := exec_loop attempts factor remaining (i + 1) (interval * factor)
        { result := t.result
          executions := t.executions + 1
          sleeps := interval :: t.sleeps }

/-- DBService.execute_serializable_transaction.  `n_retries` is the
`n_transaction_retries` configuration field (a Python int, possibly zero
or negative — `range(n)` is then empty), `first` the
`transaction_retry_interval_first` and `factor` the
`transaction_retry_interval_factor`. -/
def execute_serializable_transaction {α : Type}
    (n_retries : Int) (first factor : ℚ)
    (attempts : Nat → AttemptOutcome α) : ExecTrace α :=
  exec_loop attempts factor n_retries.toNat 0 first

/-- Sequential registrations: run create_newcomer `k` times with the same
input, each call starting from the committed state of the previous one,
collecting the per-call outcomes in order. -/
def register_seq (maxN : Nat) (nr : NewcomerRegistered) :
    Nat → DBState → DBState × List (Except DBError Newcomer)
  | 0, s => (s, [])
  | k + 1, s =>
    let p := create_newcomer maxN s nr
    let rest := register_seq maxN nr k p.1
    (rest.1, p.2 :: rest.2)

end DBService

/-- The pairing invariant claimed for registration: every newcomer row has
a registration-token row for its user_id. -/
def newcomer_token_paired (s : DBState) : Prop :=
  ∀ n ∈ s.newcomers, ∃ t ∈ s.registration_tokens, t.user_id = n.user_id

/-! ### The user read endpoint (src/auth_service/api/endpoints/user.py) -/

/-- The HTTP-level outcomes the `get_user` handler can produce. -/
inductive ApiOutcome where
  | okUser (u : UserRow)
  | notFound
  | forbidden
deriving DecidableEq, Repr

/-- The fetch-by-identifier handler `get_user`: a caller whose role is not
admin gets NotFoundException before any database access; for an admin the
row is fetched by id and UserNotExists is mapped to NotFoundException.
(The admin-branch lookup `db_service.get_user` is modelled from the spec's
read-path description, as its body is not part of the shown core; the
non-admin guard and the UserNotExists mapping are the handler's own
code.) -/
def get_user (caller_role : UserRole) (user_id : Nat) (s : DBState) :
    ApiOutcome :=
  if caller_role ≠ UserRole.admin then
    .notFound
  else
    match s.users.find? (fun u => u.user_id == user_id) with
    | none => .notFound
    | some u => .okUser u

end AuthService

namespace AuthService

open DBService

/-! ## Claim theorems -/

/-- C1 counterexample: the committed state produced by create_newcomer on
an empty database — an observable state outside any open transaction,
since create_newcomer's serializable transaction has committed and
save_registration_token has not yet run — contains a newcomer row with no
registration-token row, refuting the claimed newcomer-iff-token
invariant. -/
theorem c1_pair_atomicity_counterexample :
    (create_newcomer 3 ⟨[], [], [], 0, 0⟩ ⟨"ivan", "i@v.an", "pw"⟩).2 =
      .ok ⟨0, "ivan", "i@v.an", "pw", 0⟩ ∧
    ¬ newcomer_token_paired
      (create_newcomer 3 ⟨[], [], [], 0, 0⟩ ⟨"ivan", "i@v.an", "pw"⟩).1 := by
  constructor
  · decide
  · intro h
    exact absurd (h ⟨0, "ivan", "i@v.an", "pw", 0⟩ (by decide)) (by decide)

/-- C1 amended: the registration transaction commits only the newcomer
row — after a successful create_newcomer the token table is unchanged —
and the token row appears only once the separate save_registration_token
statement (a standalone pool statement outside that transaction) has also
run. -/
theorem c1_token_saved_outside_registration_transaction
    (maxN : Nat) (s : DBState) (nr : NewcomerRegistered)
    (s₁ : DBState) (n : Newcomer)
    (h : create_newcomer_txn maxN s nr = .ok (s₁, n))
    (t : RegistrationToken) :
    s₁.newcomers = s.newcomers ++ [n] ∧
    s₁.registration_tokens = s.registration_tokens ∧
    (save_registration_token s₁ t).registration_tokens =
      s.registration_tokens ++ [t] := by
  unfold create_newcomer_txn at h
  split at h
  · exact absurd h (by simp)
  · split at h
    · exact absurd h (by simp)
    · simp only [pure, Except.pure, Except.ok.injEq, Prod.mk.injEq,
        insert_newcomer] at h
      obtain ⟨hs, hn⟩ := h
      subst hs
      simp [save_registration_token, hn]

/-- C1 amended, witnessed at a concrete input: on the empty database the
registration transaction commits the newcomer row alone, and the token
row only arrives with the later save_registration_token call. -/
theorem c1_token_saved_outside_registration_transaction_witness :
    create_newcomer_txn 3 ⟨[], [], [], 0, 0⟩ ⟨"ivan", "i@v.an", "pw"⟩ =
      .ok (⟨[⟨0, "ivan", "i@v.an", "pw", 0⟩], [], [], 1, 0⟩,
           ⟨0, "ivan", "i@v.an", "pw", 0⟩) ∧
    ((⟨[⟨0, "ivan", "i@v.an", "pw", 0⟩], [], [], 1, 0⟩ : DBState).newcomers =
        (⟨[], [], [], 0, 0⟩ : DBState).newcomers ++
          [⟨0, "ivan", "i@v.an", "pw", 0⟩] ∧
      (⟨[⟨0, "ivan", "i@v.an", "pw", 0⟩], [], [], 1, 0⟩ : DBState).registration_tokens =
        (⟨[], [], [], 0, 0⟩ : DBState).registration_tokens ∧
      (save_registration_token
          ⟨[⟨0, "ivan", "i@v.an", "pw", 0⟩], [], [], 1, 0⟩
          ⟨"h", 0, 0, 100⟩).registration_tokens =
        (⟨[], [], [], 0, 0⟩ : DBState).registration_tokens ++
          [⟨"h", 0, 0, 100⟩]) :=
  ⟨by decide,
   c1_token_saved_outside_registration_transaction 3 ⟨[], [], [], 0, 0⟩
     ⟨"ivan", "i@v.an", "pw"⟩ _ _ (by decide) ⟨"h", 0, 0, 100⟩⟩

/-- C2 code bug, evaluated at a concrete input: verifying a valid token
for a newcomer created at time 5 when the clock reads 10 inserts (and
returns) a users row whose verified_at is the signup's created_at (5, not
the verification time 10) and whose role is the VARCHAR rendering of that
timestamp ("5", not the standard-user default), because the INSERT binds
placeholder $5 for created_at, verified_at and role alike; the row
therefore differs from the one the spec prescribes. -/
theorem c2_verified_at_and_role_binding_defect :
    (verify_newcomer ⟨[⟨7, "bob", "b@x", "pw", 5⟩], [⟨"tok", 7, 5, 99⟩],
        [], 8, 10⟩ "tok").2 =
      .ok (users_insert_row ⟨7, "bob", "b@x", "pw", 5⟩) ∧
    (users_insert_row ⟨7, "bob", "b@x", "pw", 5⟩).verified_at ≠ 10 ∧
    (users_insert_row ⟨7, "bob", "b@x", "pw", 5⟩).role ≠
      UserRole.toVarchar UserRole.user ∧
    users_insert_row ⟨7, "bob", "b@x", "pw", 5⟩ ≠
      users_insert_row_intended ⟨7, "bob", "b@x", "pw", 5⟩ 10 := by
  refine ⟨by decide, by decide, ?_, ?_⟩ <;> decide

/-- C5: whenever the users table holds at least one row with the
registration's email, create_newcomer rolls back with UserAlreadyExists
(EmailAlreadyVerified) and leaves the state unchanged — whatever the
number of pending newcomer rows for that email. -/
theorem c5_verified_email_rejected
    (maxN : Nat) (s : DBState) (nr : NewcomerRegistered)
    (h : 0 < count_users_by_email s nr.email) :
    create_newcomer maxN s nr = (s, .error .userAlreadyExists) := by
  simp [create_newcomer, create_newcomer_txn, h]

/-- C5 witnessed at a concrete input where the pending-signup count (2)
already exceeds the configured maximum (1): the failure is still
UserAlreadyExists, and no row is inserted. -/
theorem c5_verified_email_rejected_witness :
    0 < count_users_by_email
        ⟨[⟨1, "a", "e", "p", 0⟩, ⟨2, "b", "e", "p", 0⟩], [],
         [⟨9, "v", "e", "p", 0, 0, "user"⟩], 10, 0⟩ "e" ∧
    create_newcomer 1
        ⟨[⟨1, "a", "e", "p", 0⟩, ⟨2, "b", "e", "p", 0⟩], [],
         [⟨9, "v", "e", "p", 0, 0, "user"⟩], 10, 0⟩ ⟨"n", "e", "p"⟩ =
      (⟨[⟨1, "a", "e", "p", 0⟩, ⟨2, "b", "e", "p", 0⟩], [],
        [⟨9, "v", "e", "p", 0, 0, "user"⟩], 10, 0⟩,
       .error .userAlreadyExists) :=
  ⟨by decide,
   c5_verified_email_rejected 1
     ⟨[⟨1, "a", "e", "p", 0⟩, ⟨2, "b", "e", "p", 0⟩], [],
      [⟨9, "v", "e", "p", 0, 0, "user"⟩], 10, 0⟩ ⟨"n", "e", "p"⟩
     (by decide)⟩

/-- C8: a caller whose role is not admin always receives the not-found
outcome from get_user — on any two database states the responses are
identical (the handler rejects before touching the store, so target
present and target absent are indistinguishable) — and never the
forbidden outcome. -/
theorem c8_non_admin_gets_not_found
    (r : UserRole) (h : r ≠ UserRole.admin) (uid : Nat) (s s₂ : DBState) :
    get_user r uid s = .notFound ∧
    get_user r uid s₂ = get_user r uid s ∧
    get_user r uid s ≠ .forbidden := by
  simp [get_user, h]

/-- C8 witnessed concretely: a standard-role caller asking for user 7 gets
not-found both on a database that contains user 7 and on an empty one. -/
theorem c8_non_admin_gets_not_found_witness :
    UserRole.user ≠ UserRole.admin ∧
    (get_user .user 7 ⟨[], [], [⟨7, "b", "e", "p", 0, 0, "user"⟩], 8, 0⟩ =
        .notFound ∧
      get_user .user 7 ⟨[], [], [], 0, 0⟩ =
        get_user .user 7 ⟨[], [], [⟨7, "b", "e", "p", 0, 0, "user"⟩], 8, 0⟩ ∧
      get_user .user 7 ⟨[], [], [⟨7, "b", "e", "p", 0, 0, "user"⟩], 8, 0⟩ ≠
        .forbidden) :=
  ⟨by decide,
   c8_non_admin_gets_not_found .user (by decide) 7
     ⟨[], [], [⟨7, "b", "e", "p", 0, 0, "user"⟩], 8, 0⟩
     ⟨[], [], [], 0, 0⟩⟩

/-- If every attempt from index `i` on aborts with a serialization
conflict, the loop runs all of its `r + 1` remaining iterations, sleeps
after each failed attempt but the last — with the interval multiplied by
the backoff factor between sleeps — and finally re-raises the
serialization failure. -/
lemma exec_loop_all_conflicts {α : Type}
    (attempts : Nat → AttemptOutcome α) (factor : ℚ) :
    ∀ (r i : Nat) (interval : ℚ),
      (∀ j, i ≤ j → j ≤ i + r → attempts j = .conflict) →
      exec_loop attempts factor (r + 1) i interval =
        { result := .serializationRaised
          executions := r + 1
          sleeps := (List.range r).map (fun k => interval * factor ^ k) } := by
  intro r
  induction r with
  | zero =>
    intro i interval h
    simp [exec_loop, h i (le_refl i) (by omega)]
  | succ r ih =>
    intro i interval h
    have hi : attempts i = .conflict := h i (le_refl i) (by omega)
    have hrec := ih (i + 1) (interval * factor)
      (fun j hj₁ hj₂ => h j (by omega) (by omega))
    have hlist : (List.range (r + 1)).map (fun k => interval * factor ^ k) =
        interval ::
          (List.range r).map (fun k => interval * factor * factor ^ k) := by
      rw [List.range_succ_eq_map, List.map_cons, List.map_map]
      congr 1
      · simp
      · apply List.map_congr_left
        intro k _
        simp only [Function.comp_apply, pow_succ]
        ring
    rw [exec_loop]
    simp [hi, hrec, hlist]

/-- C3: when the unit of work hits a serialization conflict on all of the
configured `n ≥ 1` attempts, the executor runs it exactly n times,
sleeping after each of the first n - 1 failures for the current interval
(first, first·factor, first·factor², …, multiplied by the backoff factor
after each sleep), and finally re-raises the serialization failure itself
— a transient infrastructure outcome, not a domain error. -/
theorem c3_conflict_retries_exhausted
    {α : Type} (n : Nat) (hn : 1 ≤ n) (first factor : ℚ)
    (attempts : Nat → AttemptOutcome α)
    (hconf : ∀ i, i < n → attempts i = .conflict) :
    execute_serializable_transaction (n : Int) first factor attempts =
      { result := .serializationRaised
        executions := n
        sleeps := (List.range (n - 1)).map (fun k => first * factor ^ k) } := by
  obtain ⟨r, rfl⟩ : ∃ r, n = r + 1 := ⟨n - 1, by omega⟩
  have := exec_loop_all_conflicts attempts factor r 0 first
    (fun j _ hj₂ => hconf j (by omega))
  simpa [execute_serializable_transaction] using this

/-- C3 witnessed at n = 2 attempts, first interval 1 and factor 2, with a
unit of work that always conflicts: two executions, one sleep of length 1,
and the re-raised serialization failure. -/
theorem c3_conflict_retries_exhausted_witness :
    ((1 : Nat) ≤ 2 ∧
      (∀ i, i < 2 →
        (fun _ => (AttemptOutcome.conflict : AttemptOutcome Nat)) i =
          .conflict)) ∧
    execute_serializable_transaction ((2 : Nat) : Int) 1 2
        (fun _ => (AttemptOutcome.conflict : AttemptOutcome Nat)) =
      { result := .serializationRaised
        executions := 2
        sleeps := (List.range (2 - 1)).map (fun k => (1 : ℚ) * 2 ^ k) } :=
  ⟨⟨by omega, fun i _ => rfl⟩,
   c3_conflict_retries_exhausted 2 (by omega) 1 2
     (fun _ => .conflict) (fun i _ => rfl)⟩

/-- C4: a unit of work that raises a domain error on its first execution
short-circuits the executor — the error propagates unchanged, the unit of
work has run exactly once, and no sleep (hence no retry) occurs. -/
theorem c4_domain_error_no_retry
    {α : Type} (n : Int) (hn : 1 ≤ n) (first factor : ℚ)
    (e : DBError) (attempts : Nat → AttemptOutcome α)
    (h0 : attempts 0 = .domain e) :
    execute_serializable_transaction n first factor attempts =
      { result := .domainError e, executions := 1, sleeps := [] } := by
  obtain ⟨m, hm⟩ : ∃ m, n.toNat = m + 1 := ⟨n.toNat - 1, by omega⟩
  simp [execute_serializable_transaction, hm, exec_loop, h0]

/-- C4 witnessed at n = 3 attempts with a unit of work that raises
TokenNotFound: the error propagates verbatim after a single execution
with no sleeps. -/
theorem c4_domain_error_no_retry_witness :
    ((1 : Int) ≤ 3 ∧
      (fun _ => (AttemptOutcome.domain .tokenNotFound : AttemptOutcome Nat))
          0 = .domain .tokenNotFound) ∧
    execute_serializable_transaction 3 1 2
        (fun _ =>
          (AttemptOutcome.domain .tokenNotFound : AttemptOutcome Nat)) =
      { result := .domainError .tokenNotFound
        executions := 1
        sleeps := [] } :=
  ⟨⟨by omega, rfl⟩,
   c4_domain_error_no_retry 3 (by omega) 1 2 .tokenNotFound
     (fun _ => .domain .tokenNotFound) rfl⟩

/-- C9: with n_transaction_retries zero or negative, range(n) is empty, so
the loop body never runs — the unit of work is never invoked, no
transaction is opened, no sleep occurs — and the final `return result`
reads a never-assigned variable: the call ends in the unclassified
UnboundLocalError outcome, neither a committed value nor a domain or
serialization error. -/
theorem c9_nonpositive_retries_unbound_local
    {α : Type} (n : Int) (hn : n ≤ 0) (first factor : ℚ)
    (attempts : Nat → AttemptOutcome α) :
    execute_serializable_transaction n first factor attempts =
      { result := .unboundLocal, executions := 0, sleeps := [] } := by
  simp [execute_serializable_transaction, Int.toNat_of_nonpos hn, exec_loop]

/-- C9 witnessed at n_transaction_retries = 0: even a unit of work that
would succeed immediately is never invoked and the call ends in the
UnboundLocalError outcome. -/
theorem c9_nonpositive_retries_unbound_local_witness :
    (0 : Int) ≤ 0 ∧
    execute_serializable_transaction 0 1 2
        (fun _ => (AttemptOutcome.success 7 : AttemptOutcome Nat)) =
      { result := .unboundLocal, executions := 0, sleeps := [] } :=
  ⟨le_refl 0,
   c9_nonpositive_retries_unbound_local 0 (le_refl 0) 1 2
     (fun _ => .success 7)⟩

/-- The users count depends only on the users table. -/
lemma count_users_congr (s₁ s₂ : DBState) (h : s₁.users = s₂.users)
    (e : String) : count_users_by_email s₁ e = count_users_by_email s₂ e := by
  unfold count_users_by_email
  rw [h]

/-- A registration that passes both checks commits exactly the inserted
newcomer. -/
lemma create_newcomer_ok (maxN : Nat) (s : DBState) (nr : NewcomerRegistered)
    (hu : count_users_by_email s nr.email = 0)
    (hn : count_newcomers_by_email s nr.email < maxN) :
    create_newcomer maxN s nr =
      ((insert_newcomer s nr).1, .ok (insert_newcomer s nr).2) := by
  unfold create_newcomer create_newcomer_txn
  rw [if_neg (by omega), if_neg (by omega)]
  rfl

/-- A registration at the pending-signup cap (with no verified account)
rolls back with TooManyNewcomersWithSameEmail, leaving the state
untouched. -/
lemma create_newcomer_cap (maxN : Nat) (s : DBState)
    (nr : NewcomerRegistered)
    (hu : count_users_by_email s nr.email = 0)
    (hn : maxN ≤ count_newcomers_by_email s nr.email) :
    create_newcomer maxN s nr =
      (s, .error .tooManyNewcomersWithSameEmail) := by
  unfold create_newcomer create_newcomer_txn
  rw [if_neg (by omega), if_pos (by omega)]

/-- Inserting a newcomer bumps the pending count for its email by one. -/
lemma count_newcomers_insert_same (s : DBState) (nr : NewcomerRegistered) :
    count_newcomers_by_email (insert_newcomer s nr).1 nr.email =
      count_newcomers_by_email s nr.email + 1 := by
  simp [count_newcomers_by_email, insert_newcomer, List.filter_append]

/-- Running `k` sequential registrations while the pending count stays
below the cap: every call succeeds, each inserting exactly one newcomer
row and touching no other table. -/
lemma register_seq_all_ok (maxN : Nat) (nr : NewcomerRegistered) :
    ∀ (k : Nat) (s : DBState),
      count_users_by_email s nr.email = 0 →
      count_newcomers_by_email s nr.email + k ≤ maxN →
      (∀ r ∈ (register_seq maxN nr k s).2, ∃ n, r = .ok n) ∧
      (register_seq maxN nr k s).2.length = k ∧
      (register_seq maxN nr k s).1.users = s.users ∧
      (register_seq maxN nr k s).1.registration_tokens =
        s.registration_tokens ∧
      count_newcomers_by_email (register_seq maxN nr k s).1 nr.email =
        count_newcomers_by_email s nr.email + k ∧
      (register_seq maxN nr k s).1.newcomers.length =
        s.newcomers.length + k := by
  intro k
  induction k with
  | zero =>
    intro s hu hn
    simp [register_seq]
  | succ k ih =>
    intro s hu hn
    have hcn := create_newcomer_ok maxN s nr hu (by omega)
    have hstep : register_seq maxN nr (k + 1) s =
        ((register_seq maxN nr k (insert_newcomer s nr).1).1,
         .ok (insert_newcomer s nr).2 ::
           (register_seq maxN nr k (insert_newcomer s nr).1).2) := by
      simp [register_seq, hcn]
    have hu' : count_users_by_email (insert_newcomer s nr).1 nr.email = 0 :=
      (count_users_congr _ s rfl nr.email).trans hu
    have ih' := ih (insert_newcomer s nr).1 hu'
      (by rw [count_newcomers_insert_same]; omega)
    obtain ⟨h1, h2, h3, h4, h5, h6⟩ := ih'
    rw [hstep]
    refine ⟨?_, ?_, ?_, ?_, ?_, ?_⟩
    · intro r hr
      rcases List.mem_cons.1 hr with h | h
      · exact ⟨_, h⟩
      · exact h1 r h
    · simp [h2]
    · exact h3
    · exact h4
    · rw [h5, count_newcomers_insert_same]
      omega
    · rw [h6]
      simp [insert_newcomer]
      omega

/-- Sequential registrations split: running a + b calls is running a
calls, then b more from the committed state the first block reached, the
outcome lists concatenating. -/
lemma register_seq_add (maxN : Nat) (nr : NewcomerRegistered) :
    ∀ (a b : Nat) (s : DBState),
      register_seq maxN nr (a + b) s =
        ((register_seq maxN nr b (register_seq maxN nr a s).1).1,
         (register_seq maxN nr a s).2 ++
           (register_seq maxN nr b (register_seq maxN nr a s).1).2) := by
  intro a
  induction a with
  | zero =>
    intro b s
    simp [register_seq]
  | succ a ih =>
    intro b s
    have hsum : a + 1 + b = (a + b) + 1 := by omega
    rw [hsum]
    simp only [register_seq]
    rw [ih b]
    simp

/-- C6: from a state with no verified account and no pending signup for
the email, maxN + 1 sequential registrations succeed on each of the first
maxN calls and fail with TooManyNewcomersWithSameEmail
(TooManyPendingSignups) on call maxN + 1; the failing call inserts
nothing, so exactly maxN newcomer rows for the email (and maxN new rows in
total) exist afterwards, with the users and token tables untouched. -/
theorem c6_cap_reached_on_max_plus_one
    (maxN : Nat) (nr : NewcomerRegistered) (s : DBState)
    (hu : count_users_by_email s nr.email = 0)
    (hn : count_newcomers_by_email s nr.email = 0) :
    (∀ i, i < maxN →
      ∃ n, (register_seq maxN nr (maxN + 1) s).2[i]? = some (.ok n)) ∧
    (register_seq maxN nr (maxN + 1) s).2[maxN]? =
      some (.error .tooManyNewcomersWithSameEmail) ∧
    count_newcomers_by_email (register_seq maxN nr (maxN + 1) s).1
      nr.email = maxN ∧
    (register_seq maxN nr (maxN + 1) s).1.newcomers.length =
      s.newcomers.length + maxN ∧
    (register_seq maxN nr (maxN + 1) s).1.users = s.users ∧
    (register_seq maxN nr (maxN + 1) s).1.registration_tokens =
      s.registration_tokens := by
  obtain ⟨h1, h2, h3, h4, h5, h6⟩ :=
    register_seq_all_ok maxN nr maxN s hu (by omega)
  have hu' : count_users_by_email (register_seq maxN nr maxN s).1
      nr.email = 0 := (count_users_congr _ s h3 nr.email).trans hu
  have hcap := create_newcomer_cap maxN (register_seq maxN nr maxN s).1 nr
    hu' (by omega)
  have hone : register_seq maxN nr 1 (register_seq maxN nr maxN s).1 =
      ((register_seq maxN nr maxN s).1,
       [.error .tooManyNewcomersWithSameEmail]) := by
    simp [register_seq, hcap]
  rw [register_seq_add maxN nr maxN 1 s, hone]
  dsimp only
  refine ⟨?_, ?_, ?_, ?_, ?_, ?_⟩
  · intro i hi
    have hilen : i < (register_seq maxN nr maxN s).2.length := by
      rw [h2]; exact hi
    obtain ⟨n, hok⟩ := h1 _ (List.getElem_mem hilen)
    refine ⟨n, ?_⟩
    rw [List.getElem?_append_left hilen, List.getElem?_eq_getElem hilen,
      hok]
  · have := List.getElem?_concat_length (register_seq maxN nr maxN s).2
      (Except.error (α := Newcomer) DBError.tooManyNewcomersWithSameEmail)
    rw [h2] at this
    exact this
  · omega
  · omega
  · exact h3
  · exact h4

/-- C6 witnessed with cap 2 on the empty database: three sequential
registrations yield ok, ok, TooManyNewcomersWithSameEmail, and exactly
two newcomer rows remain, with users and tokens untouched. -/
theorem c6_cap_reached_on_max_plus_one_witness :
    (count_users_by_email ⟨[], [], [], 0, 0⟩ "i@v.an" = 0 ∧
      count_newcomers_by_email ⟨[], [], [], 0, 0⟩ "i@v.an" = 0) ∧
    ((∀ i, i < 2 →
        ∃ n, (register_seq 2 ⟨"ivan", "i@v.an", "pw"⟩ 3
          ⟨[], [], [], 0, 0⟩).2[i]? = some (.ok n)) ∧
      (register_seq 2 ⟨"ivan", "i@v.an", "pw"⟩ 3 ⟨[], [], [], 0, 0⟩).2[2]? =
        some (.error .tooManyNewcomersWithSameEmail) ∧
      count_newcomers_by_email
          (register_seq 2 ⟨"ivan", "i@v.an", "pw"⟩ 3
            ⟨[], [], [], 0, 0⟩).1 "i@v.an" = 2 ∧
      (register_seq 2 ⟨"ivan", "i@v.an", "pw"⟩ 3
          ⟨[], [], [], 0, 0⟩).1.newcomers.length =
        (⟨[], [], [], 0, 0⟩ : DBState).newcomers.length + 2 ∧
      (register_seq 2 ⟨"ivan", "i@v.an", "pw"⟩ 3 ⟨[], [], [], 0, 0⟩).1.users =
        (⟨[], [], [], 0, 0⟩ : DBState).users ∧
      (register_seq 2 ⟨"ivan", "i@v.an", "pw"⟩ 3
          ⟨[], [], [], 0, 0⟩).1.registration_tokens =
        (⟨[], [], [], 0, 0⟩ : DBState).registration_tokens) :=
  ⟨⟨by decide, by decide⟩,
   c6_cap_reached_on_max_plus_one 2 ⟨"ivan", "i@v.an", "pw"⟩
     ⟨[], [], [], 0, 0⟩ (by decide) (by decide)⟩

/-- Every row of the newcomers-tokens join carries a token row of the
registration_tokens table. -/
lemma mem_registration_tokens_of_mem_joined_rows
    (s : DBState) (p : Newcomer × RegistrationToken)
    (hp : p ∈ joined_rows s) : p.2 ∈ s.registration_tokens := by
  unfold joined_rows at hp
  rw [List.mem_flatten] at hp
  obtain ⟨l, hl, hpl⟩ := hp
  rw [List.mem_map] at hl
  obtain ⟨n, hn, rfl⟩ := hl
  rw [List.mem_map] at hpl
  obtain ⟨t, ht, rfl⟩ := hpl
  exact (List.mem_filter.1 ht).1

/-- When every token row carrying the presented string has
expired_at ≤ now, the WHERE clause admits no row and the lookup is
empty. -/
lemma get_newcomer_by_token_eq_none
    (s : DBState) (tok : String)
    (h : ∀ t ∈ s.registration_tokens, t.token = tok →
      t.expired_at ≤ s.now) :
    get_newcomer_by_token s tok = none := by
  unfold get_newcomer_by_token
  rw [List.find?_eq_none]
  intro p hp hpred
  rw [Bool.and_eq_true, beq_iff_eq, decide_eq_true_eq] at hpred
  exact absurd hpred.2
    (not_lt.2 (h p.2 (mem_registration_tokens_of_mem_joined_rows s p hp)
      hpred.1))

/-- C7: when the presented token matches no stored token row, or matches
only rows whose expiration timestamp is not strictly later than the
current time, verify_newcomer fails with TokenNotFound and the committed
state is exactly the pre-state — no row of any table is inserted. -/
theorem c7_unknown_or_expired_token_not_found
    (s : DBState) (tok : String)
    (h : ∀ t ∈ s.registration_tokens, t.token = tok →
      t.expired_at ≤ s.now) :
    verify_newcomer s tok = (s, .error .tokenNotFound) := by
  simp [verify_newcomer, verify_newcomer_txn,
    get_newcomer_by_token_eq_none s tok h]

/-- C7 witnessed concretely: presenting a never-issued token string (the
only stored token row has a different string, and is expired anyway)
fails with TokenNotFound and leaves the database unchanged. -/
theorem c7_unknown_or_expired_token_not_found_witness :
    (∀ t ∈ (⟨[⟨7, "bob", "b@x", "pw", 0⟩], [⟨"a", 7, 0, 5⟩], [], 8, 10⟩ :
        DBState).registration_tokens,
      t.token = "b" →
        t.expired_at ≤
          (⟨[⟨7, "bob", "b@x", "pw", 0⟩], [⟨"a", 7, 0, 5⟩], [], 8, 10⟩ :
            DBState).now) ∧
    verify_newcomer
        ⟨[⟨7, "bob", "b@x", "pw", 0⟩], [⟨"a", 7, 0, 5⟩], [], 8, 10⟩ "b" =
      (⟨[⟨7, "bob", "b@x", "pw", 0⟩], [⟨"a", 7, 0, 5⟩], [], 8, 10⟩,
       .error .tokenNotFound) :=
  ⟨by decide,
   c7_unknown_or_expired_token_not_found
     ⟨[⟨7, "bob", "b@x", "pw", 0⟩], [⟨"a", 7, 0, 5⟩], [], 8, 10⟩ "b"
     (by decide)⟩

/-- C10: expiry is strict — the WHERE clause requires
expired_at > utc_now(), so a token whose expired_at equals the clock's
current reading exactly is already unusable: verify_newcomer fails with
TokenNotFound. -/
theorem c10_token_unusable_at_expiration_instant
    (s : DBState) (tok : String)
    (h : ∀ t ∈ s.registration_tokens, t.token = tok →
      t.expired_at = s.now) :
    verify_newcomer s tok = (s, .error .tokenNotFound) := by
  simp [verify_newcomer, verify_newcomer_txn,
    get_newcomer_by_token_eq_none s tok
      (fun t ht htok => le_of_eq (h t ht htok))]

/-- C10 witnessed concretely: a stored token row that joins a real
newcomer and whose expired_at equals the current clock reading exactly is
rejected with TokenNotFound. -/
theorem c10_token_unusable_at_expiration_instant_witness :
    (∀ t ∈ (⟨[⟨7, "bob", "b@x", "pw", 5⟩], [⟨"tok", 7, 5, 10⟩], [], 8,
        10⟩ : DBState).registration_tokens,
      t.token = "tok" →
        t.expired_at =
          (⟨[⟨7, "bob", "b@x", "pw", 5⟩], [⟨"tok", 7, 5, 10⟩], [], 8,
            10⟩ : DBState).now) ∧
    verify_newcomer
        ⟨[⟨7, "bob", "b@x", "pw", 5⟩], [⟨"tok", 7, 5, 10⟩], [], 8, 10⟩
        "tok" =
      (⟨[⟨7, "bob", "b@x", "pw", 5⟩], [⟨"tok", 7, 5, 10⟩], [], 8, 10⟩,
       .error .tokenNotFound) :=
  ⟨by decide,
   c10_token_unusable_at_expiration_instant
     ⟨[⟨7, "bob", "b@x", "pw", 5⟩], [⟨"tok", 7, 5, 10⟩], [], 8, 10⟩ "tok"
     (by decide)⟩

end AuthService
